import Mathlib

/-!
Verification of the smrepl wallet core against its specification.

The development shallowly embeds the relevant Go code:
- `src/client/backend.go` — wallet backend: construction, current-account
  selection, XDR-based transaction encoding and `Transfer`;
- `src/repl/account_commands.go` — the REPL account flows (`createAccount`,
  `getCurrent`);
- the REPL command table and `executor` (prefix dispatch).

Bytes are `Nat`s (each below 256 where the code produces them); fallible Go
calls are embedded as `Except String`; results of calls into external
collaborators (gRPC, the file store, the ed25519 library's signature
computation, user input) are passed in as explicit arguments, so each
embedded function is a pure function of the call results the Go code
observes. A Go `panic` is embedded as `Option.none`.
-/

namespace Smrepl

/-- XDR encoding (RFC 4506, as implemented by the external go-xdr/xdr2
library) of an unsigned 64-bit integer: 8 bytes, big-endian. Each byte is a
bit-field of the value, so values are implicitly reduced modulo 2^64. -/
def xdrUint64 (n : Nat) : List Nat :=
  [n / 2 ^ 56 % 256, n / 2 ^ 48 % 256, n / 2 ^ 40 % 256, n / 2 ^ 32 % 256,
   n / 2 ^ 24 % 256, n / 2 ^ 16 % 256, n / 2 ^ 8 % 256, n % 256]

/-- Number of zero bytes XDR appends after opaque data of the given length to
reach a multiple of four bytes. -/
def xdrPad (len : Nat) : Nat := (4 - len % 4) % 4

/-- XDR encoding of fixed-length opaque data (a Go byte array): the bytes
themselves, zero-padded to a multiple of four bytes. -/
def xdrOpaqueFixed (bs : List Nat) : List Nat :=
  bs ++ List.replicate (xdrPad bs.length) 0

/-- Modelled from the spec: `common.InnerSerializableSignedTransaction` (the
CLIWallet `common` package is not under `src/`; only its use in
`backend.go:62-72` is). Per spec §3 and §4.2 the unsigned transaction's
fields are, in declared order: nonce, amount, recipient address (the
20-byte go-spacemesh address, kept as a byte list), gas limit, gas price
(field `Price`, assigned from `gasPrice` at `backend.go:68`). -/
structure InnerSerializableSignedTransaction where
  accountNonce : Nat
  amount : Nat
  recipient : List Nat
  gasLimit : Nat
  price : Nat

/-- Modelled from the spec: `common.SerializableSignedTransaction` (not under
`src/`): the embedded unsigned fields followed by the 64-byte `Signature`
array (spec §3: SignedTransaction = UnsignedTransaction + 64-byte
signature). The signature is kept as a byte list; `Transfer` always stores
exactly 64 bytes in it, mirroring the Go `[64]byte` array. -/
structure SerializableSignedTransaction where
  inner : InnerSerializableSignedTransaction
  signature : List Nat

/-- The deterministic structure-encoding mechanism: go-xdr's `xdr.Marshal`
walks a struct's fields in declared order and emits each field's XDR
encoding. One instance per struct type stands for the reflective walk. -/
class XdrMarshal (α : Type) where
  marshal : α → List Nat

/-- The field walk of `xdr.Marshal` on the unsigned transaction struct:
each field's XDR encoding, in declared field order. -/
def marshalInner (t : InnerSerializableSignedTransaction) : List Nat :=
  xdrUint64 t.accountNonce ++ xdrUint64 t.amount ++ xdrOpaqueFixed t.recipient
    ++ xdrUint64 t.gasLimit ++ xdrUint64 t.price

/-- The field walk of `xdr.Marshal` on the signed transaction struct: the
embedded unsigned struct's fields in order, then the signature array. -/
def marshalSigned (t : SerializableSignedTransaction) : List Nat :=
  xdrUint64 t.inner.accountNonce ++ xdrUint64 t.inner.amount
    ++ xdrOpaqueFixed t.inner.recipient ++ xdrUint64 t.inner.gasLimit
    ++ xdrUint64 t.inner.price ++ xdrOpaqueFixed t.signature

instance : XdrMarshal InnerSerializableSignedTransaction := ⟨marshalInner⟩

instance : XdrMarshal SerializableSignedTransaction := ⟨marshalSigned⟩

/-- `InterfaceToBytes` (backend.go:49-55): marshal a value through
`xdr.Marshal` into a byte buffer. go-xdr returns an error only for types it
cannot encode; on the two transaction structs (unsigned 64-bit integers and
fixed byte arrays) it is total, so the embedded function always returns
`Except.ok`. The `Except` return mirrors the Go signature. -/
def InterfaceToBytes {α : Type} [XdrMarshal α] (i : α) : Except String (List Nat) :=
  Except.ok (XdrMarshal.marshal i)

/-- Modelled from the spec: `common.LocalAccount` (not under `src/`): alias,
32-byte public key, 64-byte private key (spec §3). -/
structure LocalAccount where
  name : String
  pubKey : List Nat
  privKey : List Nat

/-- Modelled from the spec: `common.Store` (not under `src/`): the ordered
sequence of local accounts (spec §3, AccountStore). -/
structure Store where
  accounts : List LocalAccount

/-- `WalletBackend` (backend.go:16-21): the embedded `common.Store`, the
accounts file path and the current-account pointer (`none` = nil). The
embedded `GRPCClient` is an external collaborator and is not part of the
local state. -/
structure WalletBackend where
  store : Store
  currentAccount : Option LocalAccount
  accountsFilePath : String

/-- backend.go:14. -/
def accountsFileName : String := "accounts.json"

/-- `path.Join` of a directory and a file name, for the well-formed paths the
backend builds. -/
def pathJoin (dir file : String) : String := dir ++ "/" ++ file

/-- `NewWalletBackend` (backend.go:23-39) as a function of the results of its
two external calls: `common.LoadAccounts` (`loadResult`) and
`GRPCClient.Connect` (`connectResult`). On a load error the Go code logs it
and continues with a fresh empty `common.Store{}`; only a connect error is
returned to the caller. -/
def NewWalletBackend (dataDir : String) (loadResult : Except String Store)
    (connectResult : Except String Unit) : Except String WalletBackend :=
  let accountsFilePath := pathJoin dataDir accountsFileName
  let acc : Store :=
    match loadResult with
    | Except.ok a => a
    | Except.error _ => { accounts := [] }
  match connectResult with
  | Except.error e => Except.error e
  | Except.ok _ =>
    Except.ok { store := acc, currentAccount := none,
                accountsFilePath := accountsFilePath }

/-- `ed25519.Sign2` from the external spacemeshos/ed25519 library: it panics
(embedded as `none`) unless the private key is exactly 64 bytes, and
otherwise returns the 64-byte signature. The signature computation itself
belongs to the external library and is passed in as `sign`. -/
def Sign2 (sign : List Nat → List Nat → List Nat) (key msg : List Nat) :
    Option (List Nat) :=
  if key.length = 64 then some (sign key msg) else none

/-- Go `copy(tx.Signature[:], src)`: the 64-byte array starts zeroed and
receives the first `min 64 src.length` bytes of `src`. -/
def copyIntoSignature (src : List Nat) : List Nat :=
  (src ++ List.replicate 64 0).take 64

/-- `Transfer` (backend.go:62-77) as a function of the backend state, the
transaction fields, the key, the external signature computation `sign` and
the external `SubmitCoinTransaction` collaborator `submit` (polymorphic in
the remote call's result type). Mirrors the Go code line by line:
the unsigned struct is built; `buf, _ := InterfaceToBytes(...)` discards the
encoding error (on error Go would leave `buf` nil, embedded as `[]`);
`ed25519.Sign2` signs `buf` (panic = `none`); the signature is copied into
the `[64]byte` field; the full struct is re-encoded, an encoding error being
returned; otherwise the bytes go to `submit`. The backend state is returned
alongside to make the frame effect explicit: no branch modifies it. -/
def Transfer {τ : Type} (sign : List Nat → List Nat → List Nat)
    (w : WalletBackend) (recipient : List Nat)
    (nonce amount gasPrice gasLimit : Nat) (key : List Nat)
    (submit : List Nat → Except String τ) :
    Option (Except String τ) × WalletBackend :=
  let tx0 : InnerSerializableSignedTransaction :=
    { accountNonce := nonce, amount := amount, recipient := recipient,
      gasLimit := gasLimit, price := gasPrice }
  let buf : List Nat :=
    match InterfaceToBytes tx0 with
    | Except.ok b => b
    | Except.error _ => []
  match Sign2 sign key buf with
  | none => (none, w)
  | some sg =>
    let tx : SerializableSignedTransaction :=
      { inner := tx0, signature := copyIntoSignature sg }
    match InterfaceToBytes tx with
    | Except.error e => (some (Except.error e), w)
    | Except.ok b => (some (submit b), w)

/-- Modelled from the spec: `WalletBackend.CreateAccount` is not under
`src/` (only its callers, `account_commands.go:81` and the command table,
are). Per spec §4.1 it fails with `DuplicateAliasError` on an existing alias
(case-sensitive exact match) and otherwise appends the freshly generated
account; per spec §4.4 the very first created account becomes current
automatically, later creations leave the selection unchanged. The generated
key pair is passed in (`pub`, `priv`), key generation being the external
crypto library's. Does not persist. -/
def CreateAccount (w : WalletBackend) (name : String) (pub priv : List Nat) :
    Except String (LocalAccount × WalletBackend) :=
  if w.store.accounts.any (fun a => a.name == name) then
    Except.error "DuplicateAliasError"
  else
    let acc : LocalAccount := { name := name, pubKey := pub, privKey := priv }
    let cur : Option LocalAccount :=
      if w.store.accounts.isEmpty then some acc else w.currentAccount
    Except.ok (acc, { store := { accounts := w.store.accounts ++ [acc] },
                      currentAccount := cur,
                      accountsFilePath := w.accountsFilePath })

/-- Modelled from the spec: the `Client` implementation of
`CurrentAccount() (*common.LocalAccount, error)` (interface at
part_000:49) is not under `src/`; `backend.go:41-43` only exposes the raw
field. Per spec §4.4, with nothing selected it fails with
`NoCurrentAccountError` and never picks an account itself. -/
def CurrentAccount (w : WalletBackend) : Except String LocalAccount :=
  match w.currentAccount with
  | some a => Except.ok a
  | none => Except.error "NoCurrentAccountError"

/-- `getCurrent` (account_commands.go:189-196) as a function of the two
`r.client.CurrentAccount()` call results: the first query's result, and —
only reached on a first error, after `r.chooseAccount()` has run — the
re-query's result. The interactive effect of `chooseAccount` is summarized
by `afterChoose`, the result the re-query then returns. -/
def getCurrent (first afterChoose : Except String LocalAccount) :
    Except String LocalAccount :=
  match first with
  | Except.ok a => Except.ok a
  | Except.error _ => afterChoose

/-- How the REPL `createAccount` flow (account_commands.go:77-94) ends. -/
inductive CreateAccountOutcome
  | createFailed
  | storeFailed
  | created

/-- The REPL `createAccount` flow (account_commands.go:77-94) as a function
of the results of its two client calls, `CreateAccount` and
`StoreAccounts`. The returned Bool records whether `r.client.StoreAccounts()`
was invoked: on a create error the flow logs and returns before it. -/
def createAccount (createResult : Except String LocalAccount)
    (storeResult : Except String Unit) : CreateAccountOutcome × Bool :=
  match createResult with
  | Except.error _ => (CreateAccountOutcome.createFailed, false)
  | Except.ok _ =>
    match storeResult with
    | Except.error _ => (CreateAccountOutcome.storeFailed, true)
    | Except.ok _ => (CreateAccountOutcome.created, true)

/-- A REPL command (part_000:26-30): its text, description and handler. The
handler type is a parameter; the command table instantiates it with the
`Handler` tags below. -/
structure Command (α : Type) where
  text : List Char
  description : String
  fn : α

/-- The matching test of the dispatch loop (part_000:170), exactly as the Go
code writes it: the input is at least as long as the command text and its
first bytes equal the command text. -/
def commandMatches (ctext text : List Char) : Bool :=
  decide (ctext.length ≤ text.length) && decide (text.take ctext.length = ctext)

/-- `executor` (part_000:168-179): walk the command list in order, run the
first command whose text matches the input, return `none` (the
"invalid command." print) when none matches. -/
def executor {α : Type} (commands : List (Command α)) (text : List Char) :
    Option α :=
  match commands with
  | [] => none
  | c :: rest =>
    if commandMatches c.text text then some c.fn else executor rest text

/-- One tag per handler method referenced by `initializeCommands`
(part_000:93-151); distinct constructors are distinct handlers. -/
inductive Handler
  | openWallet | createWallet | walletInfo | closeWallet
  | createAccount | chooseAccount | printAccountInfo
  | printLocalAccountRewards | sign | signText | printAccountTransactions
  | submitCoinTransaction
  | nodeInfo | printMeshInfo | printTransactionStatus
  | printAccountState | printAccountRewards | printAccountRewardsStream
  | printSmesherRewards | printGlobalState
  | printSmesherId | printRewardsAddress | setRewardsAddress
  | printCurrentSmesherRewards | stopSmeshing | printSmeshingStatus
  | printPostStatus | printPostProviders | startSmeshing
  | printAllAccounts | quit
deriving DecidableEq

/-- `initializeCommands` (part_000:93-151): the command table, transcribed
entry for entry; the wallet-level entries depend on whether a wallet is
open, the rest follow. -/
def initializeCommands (clientOpen : Bool) : List (Command Handler) :=
  let accountCommands : List (Command Handler) :=
    if clientOpen then
      [⟨"wallet-info".toList, "Display wallet info", Handler.walletInfo⟩,
       ⟨"wallet-close".toList, "Close current wallet", Handler.closeWallet⟩,
       ⟨"account-new".toList, "Create a new account (key pair) and set as current",
        Handler.createAccount⟩,
       ⟨"account-set".toList, "Set one of the previously created accounts as current",
        Handler.chooseAccount⟩,
       ⟨"account-info".toList, "Display the current account info",
        Handler.printAccountInfo⟩,
       ⟨"account-rewards".toList, "Display all rewards awarded to the current account",
        Handler.printLocalAccountRewards⟩,
       ⟨"account-sign".toList, "Sign a hex message with the current account private key",
        Handler.sign⟩,
       ⟨"account-text-sign".toList, "Sign a text message with the current account private key",
        Handler.signText⟩,
       ⟨"account-txs".toList, "Display all outgoing and incoming transactions for the current account that are on the mesh",
        Handler.printAccountTransactions⟩,
       ⟨"account-send-coin".toList, "Transfer coins from current account to another account",
        Handler.submitCoinTransaction⟩]
    else
      [⟨"wallet-open".toList, "Open a wallet", Handler.openWallet⟩,
       ⟨"wallet-create".toList, "Create a wallet", Handler.createWallet⟩]
  let otherCommands : List (Command Handler) :=
    [⟨"status-node".toList, "Display node status", Handler.nodeInfo⟩,
     ⟨"status-net".toList, "Display network information", Handler.printMeshInfo⟩,
     ⟨"status-tx".toList, "Display a transaction status", Handler.printTransactionStatus⟩,
     ⟨"state-account".toList, "Display an account balance and nonce",
      Handler.printAccountState⟩,
     ⟨"state-rewards".toList, "Display an account rewards ", Handler.printAccountRewards⟩,
     ⟨"state-stream-rewards".toList, "Stream new rewards for an account",
      Handler.printAccountRewardsStream⟩,
     ⟨"state-stream-account".toList, "Stream account updates",
      Handler.printAccountRewardsStream⟩,
     ⟨"state-smesher-rewards".toList, "Display smesher rewards",
      Handler.printSmesherRewards⟩,
     ⟨"state-global".toList, "Display the most recent network global state",
      Handler.printGlobalState⟩,
     ⟨"smesher-id".toList, "Display current smesher id", Handler.printSmesherId⟩,
     ⟨"smesher-rewards-address".toList, "Display current smesher rewards address",
      Handler.printRewardsAddress⟩,
     ⟨"smesher-set-rewards-address".toList, "Set the smesher's rewards address",
      Handler.setRewardsAddress⟩,
     ⟨"smesher-rewards".toList, "Display current smesher rewards",
      Handler.printCurrentSmesherRewards⟩,
     ⟨"smesher-stop".toList, "Stop smeshing", Handler.stopSmeshing⟩,
     ⟨"smesher-status".toList, "Display smesher status", Handler.printSmeshingStatus⟩,
     ⟨"smesher-post-status".toList, "Display the proof of space status",
      Handler.printPostStatus⟩,
     ⟨"smesher-post-providers".toList, "Display the available proof of space providers",
      Handler.printPostProviders⟩,
     ⟨"smesher-start".toList, "Start smeshing using the current wallet account as the rewards account",
      Handler.startSmeshing⟩,
     ⟨"dbg-all-accounts".toList, "Display all global state accounts",
      Handler.printAllAccounts⟩,
     ⟨"quit".toList, "Quit this app", Handler.quit⟩]
  accountCommands ++ otherCommands

/-! ## Claims -/

/-- C1: for every transaction and every 64-byte signature, the signed
transaction's wire encoding equals the deterministic encoding of the
unsigned fields followed by the 64-byte signature, both produced by
`InterfaceToBytes` applied to the respective structure. -/
theorem C1_signed_encoding_is_unsigned_append_signature
    (t : InnerSerializableSignedTransaction) (sig : List Nat)
    (h : sig.length = 64) :
    InterfaceToBytes (SerializableSignedTransaction.mk t sig) =
      Except.map (fun b => b ++ sig) (InterfaceToBytes t) := by
  have hpad : xdrOpaqueFixed sig = sig := by
    simp [xdrOpaqueFixed, xdrPad, h]
  simp [InterfaceToBytes, XdrMarshal.marshal, marshalSigned, marshalInner,
    Except.map, hpad, List.append_assoc]

/-- Witness for C1 at a concrete transaction and a concrete 64-byte
signature. -/
theorem C1_signed_encoding_witness :
    (List.replicate 64 9 : List Nat).length = 64 ∧
    InterfaceToBytes (SerializableSignedTransaction.mk
        (InnerSerializableSignedTransaction.mk 1 2 (List.replicate 20 3) 4 5)
        (List.replicate 64 9)) =
      Except.map (fun b => b ++ List.replicate 64 9)
        (InterfaceToBytes
          (InnerSerializableSignedTransaction.mk 1 2 (List.replicate 20 3) 4 5)) :=
  ⟨by simp,
   C1_signed_encoding_is_unsigned_append_signature
     (InnerSerializableSignedTransaction.mk 1 2 (List.replicate 20 3) 4 5)
     (List.replicate 64 9) (by simp)⟩

/-- C2: the byte encoding used as the signing payload serializes the fields
in exactly the order nonce, amount, recipient address, gas limit, gas
price; each integer field is 8 bytes, the 20-byte recipient appears with no
padding beyond its declared width, and the whole payload is exactly
8+8+20+8+8 = 52 bytes. -/
theorem C2_signing_payload_field_order
    (t : InnerSerializableSignedTransaction) (h : t.recipient.length = 20) :
    InterfaceToBytes t =
      Except.ok (xdrUint64 t.accountNonce ++ xdrUint64 t.amount ++ t.recipient
        ++ xdrUint64 t.gasLimit ++ xdrUint64 t.price)
    ∧ (∀ n : Nat, (xdrUint64 n).length = 8)
    ∧ (xdrUint64 t.accountNonce ++ xdrUint64 t.amount ++ t.recipient
        ++ xdrUint64 t.gasLimit ++ xdrUint64 t.price).length = 52 := by
  have hpad : xdrOpaqueFixed t.recipient = t.recipient := by
    simp [xdrOpaqueFixed, xdrPad, h]
  refine ⟨?_, fun n => rfl, ?_⟩
  · simp [InterfaceToBytes, XdrMarshal.marshal, marshalInner, hpad]
  · simp [xdrUint64, h]

/-- Witness for C2 at a concrete transaction with a 20-byte recipient. -/
theorem C2_signing_payload_witness :
    (List.replicate 20 3 : List Nat).length = 20 ∧
    (InterfaceToBytes
        (InnerSerializableSignedTransaction.mk 1 2 (List.replicate 20 3) 4 5) =
      Except.ok (xdrUint64 1 ++ xdrUint64 2 ++ List.replicate 20 3
        ++ xdrUint64 4 ++ xdrUint64 5)
    ∧ (∀ n : Nat, (xdrUint64 n).length = 8)
    ∧ (xdrUint64 1 ++ xdrUint64 2 ++ List.replicate 20 3
        ++ xdrUint64 4 ++ xdrUint64 5).length = 52) :=
  ⟨by simp,
   C2_signing_payload_field_order
     (InnerSerializableSignedTransaction.mk 1 2 (List.replicate 20 3) 4 5)
     (by simp)⟩

/-- C3 counterexample: at a malformed private key (the empty key, length 0 ≠
64) signing fails, but `Transfer` does not fail with a returned error as the
claim states: `ed25519.Sign2` panics, so the run produces no result at all
(`none`), not `some (Except.error _)` — no `SigningError` reaches the
caller. -/
theorem C3_counterexample :
    (([] : List Nat).length ≠ 64) ∧
    (Transfer (fun _ _ => List.replicate 64 0)
        (WalletBackend.mk (Store.mk []) none "d") (List.replicate 20 1) 1 2 3 4
        [] (fun _ => (Except.error "remote" : Except String Nat))).1 = none ∧
    ∀ e : String,
      (Transfer (fun _ _ => List.replicate 64 0)
        (WalletBackend.mk (Store.mk []) none "d") (List.replicate 20 1) 1 2 3 4
        [] (fun _ => (Except.error "remote" : Except String Nat))).1 ≠
        some (Except.error e) := by
  refine ⟨by decide, rfl, fun e => ?_⟩
  simp [Transfer, Sign2]

/-- C3 as amended: a signing failure (malformed key material, length ≠ 64)
makes `Transfer` panic: the operation produces no byte output that could be
mistaken for a valid signed transaction, performs no retry, but returns no
`SigningError` value either. (The encoding error of the unsigned fields is
discarded at backend.go:70, but the XDR mechanism is total on these structs,
so only the final encoding's error return — which `Transfer` propagates — and
the signing panic are reachable failure modes.) -/
theorem C3_malformed_key_panics_no_output {τ : Type}
    (sign : List Nat → List Nat → List Nat) (w : WalletBackend)
    (recipient : List Nat) (nonce amount gasPrice gasLimit : Nat)
    (key : List Nat) (submit : List Nat → Except String τ)
    (h : key.length ≠ 64) :
    (Transfer sign w recipient nonce amount gasPrice gasLimit key submit).1 =
      none := by
  simp [Transfer, Sign2, h]

/-- Witness for the amended C3 at the concrete empty key. -/
theorem C3_malformed_key_witness :
    (([] : List Nat).length ≠ 64) ∧
    (Transfer (fun _ _ => List.replicate 64 0)
        (WalletBackend.mk (Store.mk []) none "d") (List.replicate 20 1) 1 2 3 4
        [] (fun _ => (Except.error "offline" : Except String Nat))).1 = none :=
  ⟨by decide,
   C3_malformed_key_panics_no_output (fun _ _ => List.replicate 64 0)
     (WalletBackend.mk (Store.mk []) none "d") (List.replicate 20 1) 1 2 3 4
     [] (fun _ => (Except.error "offline" : Except String Nat)) (by decide)⟩

/-- C9: for every invocation of `Transfer` and every outcome of the remote
submission — success, failure or timeout (an error result), and even the
signing panic — the backend's local state (account store, current-account
selection, and the state as a whole, which holds no nonce field at all) is
returned unchanged. -/
theorem C9_transfer_leaves_backend_unchanged {τ : Type}
    (sign : List Nat → List Nat → List Nat) (w : WalletBackend)
    (recipient : List Nat) (nonce amount gasPrice gasLimit : Nat)
    (key : List Nat) (submit : List Nat → Except String τ) :
    (Transfer sign w recipient nonce amount gasPrice gasLimit key submit).2 =
      w := by
  unfold Transfer
  dsimp only [InterfaceToBytes]
  split <;> rfl

/-- C4 counterexample: with the accounts file present but malformed
(`common.LoadAccounts` fails) and the gRPC connection fine,
`NewWalletBackend` does not return the load failure to the caller as the
claim states: it returns success with an implicitly substituted empty
store. -/
theorem C4_counterexample :
    NewWalletBackend "d" (Except.error "CorruptStoreError") (Except.ok ()) =
      Except.ok (WalletBackend.mk (Store.mk []) none "d/accounts.json") ∧
    ∀ e : String,
      NewWalletBackend "d" (Except.error "CorruptStoreError") (Except.ok ()) ≠
        Except.error e := by
  refine ⟨rfl, fun e h => ?_⟩
  simp [NewWalletBackend] at h

/-- C4 as amended: when the accounts file is malformed, `NewWalletBackend`
logs the failure, implicitly substitutes an empty store inside the core and
returns success; the load error is never returned to the caller, and the
only constructor failure is a gRPC connect error, which is passed through. -/
theorem C4_load_error_swallowed (dataDir e : String) :
    (NewWalletBackend dataDir (Except.error e) (Except.ok ()) =
      Except.ok (WalletBackend.mk (Store.mk []) none
        (pathJoin dataDir accountsFileName))) ∧
    ∀ e2 : String,
      NewWalletBackend dataDir (Except.error e) (Except.error e2) =
        Except.error e2 :=
  ⟨rfl, fun _ => rfl⟩

/-- C5: on a store holding no accounts, a successful `CreateAccount` makes
the newly created first account the current account automatically: the
`NoAccounts` state transitions to `AccountSelected(new)` with no further
selection step, whatever the previous (necessarily stale) selection and
path were. -/
theorem C5_first_account_becomes_current
    (cur : Option LocalAccount) (path nm : String) (pub priv : List Nat) :
    CreateAccount (WalletBackend.mk (Store.mk []) cur path) nm pub priv =
      Except.ok (LocalAccount.mk nm pub priv,
        WalletBackend.mk (Store.mk [LocalAccount.mk nm pub priv])
          (some (LocalAccount.mk nm pub priv)) path) := rfl

/-- C6: with no account selected the core's `CurrentAccount` fails with
`NoCurrentAccountError` (and, being a pure query, selects nothing); the
fallback — running the selection flow and re-querying — lives in the REPL's
`getCurrent`, which returns the re-query's result exactly when the first
query failed and never re-queries when it succeeded. -/
theorem C6_no_current_account_error_and_repl_fallback :
    (∀ (s : Store) (p : String),
      CurrentAccount (WalletBackend.mk s none p) =
        Except.error "NoCurrentAccountError") ∧
    (∀ (e : String) (afterChoose : Except String LocalAccount),
      getCurrent (Except.error e) afterChoose = afterChoose) ∧
    (∀ (a : LocalAccount) (afterChoose : Except String LocalAccount),
      getCurrent (Except.ok a) afterChoose = Except.ok a) :=
  ⟨fun _ _ => rfl, fun _ _ => rfl, fun _ _ => rfl⟩

/-- The dispatch loop returns the first command, in list order, that the
matching test accepts. -/
theorem executor_eq_find {α : Type} (commands : List (Command α))
    (text : List Char) :
    executor commands text =
      Option.map (fun c => c.fn)
        (List.find? (fun c => commandMatches c.text text) commands) := by
  induction commands with
  | nil => rfl
  | cons c cs ih =>
    by_cases hm : commandMatches c.text text = true
    · simp [executor, hm, List.find?_cons_of_pos]
    · have hm' : commandMatches c.text text = false := by
        simpa using hm
      simp [executor, hm', List.find?_cons_of_neg, ih]

/-- The Go matching test (input at least as long as the command text, first
bytes equal to it) is exactly the textual relation of one list being an
initial segment of the other. -/
theorem commandMatches_iff_initial_segment (a b : List Char) :
    commandMatches a b = true ↔ ∃ rest, a ++ rest = b := by
  constructor
  · intro h
    simp only [commandMatches, Bool.and_eq_true, decide_eq_true_eq] at h
    obtain ⟨_, h2⟩ := h
    refine ⟨b.drop a.length, ?_⟩
    nth_rewrite 1 [← h2]
    exact List.take_append_drop _ _
  · rintro ⟨rest, rfl⟩
    simp [commandMatches, List.take_left]

/-- C7: the command executor dispatches by initial-segment match over the
ordered command list: it invokes the handler of the first command (in list
order) whose text is an initial segment of the input — the Go byte-slice
test being exactly that relation — and when no command text matches it
invokes no handler (the "invalid command." report). -/
theorem C7_executor_dispatches_first_match :
    ∀ (α : Type) (commands : List (Command α)) (text : List Char),
      (executor commands text =
        Option.map (fun c => c.fn)
          (List.find? (fun c => commandMatches c.text text) commands))
      ∧ (∀ a b : List Char, commandMatches a b = true ↔ ∃ rest, a ++ rest = b)
      ∧ (executor commands text = none ↔
          ∀ c ∈ commands, commandMatches c.text text = false) := by
  intro α commands text
  refine ⟨executor_eq_find commands text,
    fun a b => commandMatches_iff_initial_segment a b, ?_⟩
  rw [executor_eq_find]
  simp [List.find?_eq_none]

/-- C8: both stream commands of the table dispatch to the same handler. The
input "state-stream-account" (documented "Stream account updates") invokes
`printAccountRewardsStream` — the rewards-stream handler — exactly as
"state-stream-rewards" does, refuting the claim that each has its own
handler and evidencing the bug the code's own descriptions document. -/
theorem C8_stream_account_dispatches_rewards_handler :
    executor (initializeCommands true) ("state-stream-account".toList) =
      some Handler.printAccountRewardsStream ∧
    executor (initializeCommands true) ("state-stream-rewards".toList) =
      some Handler.printAccountRewardsStream := by
  constructor <;> rfl

/-- C10: in the REPL account-creation flow, persistence runs only after a
successful `CreateAccount`: on a create error the flow returns with
`StoreAccounts` not invoked (so the on-disk file is untouched), and whenever
`CreateAccount` succeeds the flow does reach `StoreAccounts`. -/
theorem C10_store_only_after_create_success :
    (∀ (e : String) (storeResult : Except String Unit),
      createAccount (Except.error e) storeResult =
        (CreateAccountOutcome.createFailed, false)) ∧
    (∀ (ac : LocalAccount) (storeResult : Except String Unit),
      (createAccount (Except.ok ac) storeResult).2 = true) :=
  ⟨fun _ _ => rfl, fun _ sr => by cases sr <;> rfl⟩

end Smrepl
